import Mathlib

/-!
Shallow embedding of `src/src/views/assignment_view.py`, a FastAPI route
module for assignment management.

Each route handler is modelled as a pure function from the outcome of its
single delegated service/repository call (a value or a raised exception) to
an HTTP-level result.  Exceptions are a kind tag plus the message string the
exception object carries; the kind tags mirror the Python exception classes
imported at the top of the module, and the `except` clauses of each handler
are embedded as ordered tests on the kind.  An exception that no clause of a
handler matches escapes the handler; this is the `unhandled` result.

Python string `%` formatting is applied eagerly at every `logger.*` call
site.  Every format string in the module except the one on line 216 has
exactly as many `%s` placeholders as arguments, so those calls always
succeed and are omitted from the embedding as effect-free.  Line 216
(`"Failed to delete assignment with uuid" % assignment_uuid`) applies `%` to
a format string with no placeholder, which raises `TypeError` in Python, so
that one formatting step is embedded explicitly (`pyPercentS`).
-/

/-- Kinds of exception that can cross the service/repository boundary.
The first eight mirror the exception classes imported by the module;
`typeError` models the built-in `TypeError` raised by malformed `%`
formatting and `otherException` stands for any further exception type
(e.g. the `HTTPException` raised by the external `only_teacher` gate). -/
inductive ExcKind where
  | sqlAlchemyError
  | uuidValidationException
  | courseNotFoundException
  | assignmentNotFoundException
  | assignmentGameFieldException
  | assignmentPositionError
  | assignmentElementFieldError
  | assignmentException
  | typeError
  | otherException
  deriving DecidableEq, Repr

/-- `except AssignmentException` matches the base class and its four
subclasses imported from `exceptions.AssignmentException`. -/
def ExcKind.isAssignmentExc : ExcKind → Bool
  | .assignmentNotFoundException => true
  | .assignmentGameFieldException => true
  | .assignmentPositionError => true
  | .assignmentElementFieldError => true
  | .assignmentException => true
  | _ => false

/-- A raised exception: its class kind and its own message, `str(e)`. -/
structure Exc where
  kind : ExcKind
  msg : String
  deriving DecidableEq, Repr

/-- Result of running one handler on one request.
`success` is a normal return (FastAPI sends the body with the status set on
the `Response` object, default 200); `httpError` is a raised
`HTTPException(status_code, detail)`; `unhandled` is an exception the
handler did not catch, escaping to the framework. -/
inductive HResp (α : Type) where
  | success (status : Nat) (body : α)
  | httpError (status : Nat) (detail : String)
  | unhandled (e : Exc)
  deriving DecidableEq, Repr

/-- The (status, detail) of an `HTTPException` response, if the result is
one.  Used to state that an error body is fixed. -/
def errInfo {α : Type} : HResp α → Option (Nat × String)
  | .httpError s d => some (s, d)
  | _ => none

/-- Schema `AssignmentGet` (defined in the excluded schema layer); only the
fields the module reads are modelled. -/
structure AssignmentGet where
  assignment_id : String
  course_id : String
  deriving DecidableEq, Repr

/-- Schema `AssignmentCreate`; the module reads only `course_id`. -/
structure AssignmentCreate where
  course_id : String
  deriving DecidableEq, Repr

/-- Schema `GameElementCreate` (excluded schema layer); the module never
inspects its fields, so a single identifying field suffices. -/
structure GameElementCreate where
  element_id : Nat
  deriving DecidableEq, Repr

/-- Schema `GameElementGet` (excluded schema layer). -/
structure GameElementGet where
  element_id : Nat
  deriving DecidableEq, Repr

/-- Schema `ActionGet` (excluded schema layer). -/
structure ActionGet where
  action_id : Nat
  deriving DecidableEq, Repr

/-- The fixed UUID-format error detail, lines 86-87 (repeated verbatim at
lines 128-129, 187-188, 250-251). -/
def uuidErrorDetail : String :=
  "UUID of course validation error. UUID should be 32..36 " ++
  "length and UUID must contains only hex symbols."

/-- The fixed placement error detail of `/add_elements/`, lines 283-286. -/
def elementsErrorDetail : String :=
  "You cannot add this elements. " ++
  "Some of them go beyond the limits of the " ++
  "playing field or are placed on already occupied squares. " ++
  "Or assignment doesn't exist."

/-- Python truthiness of a list: nonempty. -/
def listTruthy {α : Type} (l : List α) : Bool := !l.isEmpty

/-- Split a character list at each occurrence of the two-character
placeholder `%s`; the number of parts is one more than the number of
placeholders. -/
def splitOnPercentS : List Char → List (List Char)
  | [] => [[]]
  | '%' :: 's' :: rest => [] :: splitOnPercentS rest
  | c :: rest =>
    match splitOnPercentS rest with
    | [] => [[c]]
    | p :: ps => (c :: p) :: ps

/-- Python `fmt % arg` for a single string argument: substitutes the single
`%s`; with no placeholder it raises
`TypeError: not all arguments converted during string formatting`, and with
more than one it raises `TypeError: not enough arguments for format string`. -/
def pyPercentS (fmt arg : String) : Except Exc String :=
  match splitOnPercentS fmt.data with
  | [a, b] => .ok (String.mk a ++ arg ++ String.mk b)
  | [_] =>
    .error ⟨.typeError, "not all arguments converted during string formatting"⟩
  | _ => .error ⟨.typeError, "not enough arguments for format string"⟩

/-- Handler `get_assignments` (lines 61-104), `GET /assignments/`.
`svc` is the outcome of `AssignmentsService.get_course_assignments`. -/
def get_assignments (svc : Except Exc (List AssignmentGet)) :
    HResp (List AssignmentGet) :=
  match svc with
  | .error e =>
    if e.kind = .sqlAlchemyError then .httpError 500 "Database error"
    else if e.kind = .uuidValidationException then .httpError 400 uuidErrorDetail
    else .unhandled e
  | .ok assignments =>
    if listTruthy assignments then .success 201 assignments
    else .httpError 404 "Assignment not found"

/-- Calls a handler makes, in order, used to state that the permission gate
runs before the service. -/
inductive CallEvent where
  | onlyTeacherCall
  | serviceCreateAssignmentCall
  deriving DecidableEq, Repr

/-- Handler `create_assignment` (lines 107-159), `POST /assignment/`.
`perm` is the outcome of `await only_teacher(request)` (line 115, before the
`try` block): `none` if it returns, `some e` if it raises `e`.  `svc` is the
outcome of `AssignmentsService.create_assignment`; `none` models a falsy
return.  The first component records which external calls were made. -/
def create_assignment (assignment_in : AssignmentCreate) (perm : Option Exc)
    (svc : Except Exc (Option AssignmentGet)) :
    List CallEvent × HResp AssignmentGet :=
  match perm with
  | some e => ([.onlyTeacherCall], .unhandled e)
  | none =>
    ([.onlyTeacherCall, .serviceCreateAssignmentCall],
      match svc with
      | .error e =>
        if e.kind = .uuidValidationException then .httpError 400 uuidErrorDetail
        else if e.kind = .courseNotFoundException then
          .httpError 400
            ("Course with id " ++ assignment_in.course_id ++
              " not found, can't create assignment")
        else if e.kind = .assignmentGameFieldException then .httpError 400 e.msg
        else if e.kind = .assignmentPositionError then .httpError 400 e.msg
        else if e.kind = .sqlAlchemyError then .httpError 500 "Database error"
        else .unhandled e
      | .ok assignment =>
        match assignment with
        | some a => .success 200 a
        | none => .httpError 500 "Internal server error")

/-- Handler `delete_assignment` (lines 162-217),
`POST /assignment/delete/{assignment_id}`.  `perm` as in
`create_assignment`; `svc` is the outcome of
`AssignmentsService.delete_assignment` with `none` a falsy return.  On a
falsy return the module first evaluates
`"Failed to delete assignment with uuid" % assignment_uuid` (line 216),
then would raise `HTTPException(500, "Internal server error")` (line 217). -/
def delete_assignment (assignment_uuid : String) (perm : Option Exc)
    (svc : Except Exc (Option AssignmentGet)) : HResp String :=
  match perm with
  | some e => .unhandled e
  | none =>
    match svc with
    | .error e =>
      if e.kind = .sqlAlchemyError then .httpError 500 "Database error"
      else if e.kind = .uuidValidationException then
        .httpError 400 uuidErrorDetail
      else if e.kind = .assignmentNotFoundException then
        .httpError 404 ("Assignment with id " ++ assignment_uuid ++ " not found")
      else if e.kind.isAssignmentExc then .httpError 500 "Internal server error"
      else .unhandled e
    | .ok assignment =>
      match assignment with
      | some a =>
        .success 201
          ("Assigment with id " ++ a.assignment_id ++ " successfully deleted")
      | none =>
        match pyPercentS "Failed to delete assignment with uuid"
            assignment_uuid with
        | .error e => .unhandled e
        | .ok _ => .httpError 500 "Internal server error"

/-- Handler `get_total_info_assignment` (lines 220-267),
`GET /full_assignment/{assignment_uuid}`.  The `HTTPException(404)` raised
inside the `try` block (line 238) matches none of the `except` clauses, so
it reaches the framework as a 404 response. -/
def get_total_info_assignment (assignment_uuid : String)
    (svc : Except Exc (Option (AssignmentGet × Option (List GameElementGet)))) :
    HResp (AssignmentGet × Option (List GameElementGet)) :=
  match svc with
  | .ok data =>
    match data with
    | some (assignment, elements) => .success 200 (assignment, elements)
    | none => .httpError 404 "Assignment not found"
  | .error e =>
    if e.kind = .sqlAlchemyError then .httpError 500 "Database error"
    else if e.kind = .uuidValidationException then
      .httpError 400 uuidErrorDetail
    else if e.kind = .assignmentNotFoundException then
      .httpError 404 ("Assignment with id " ++ assignment_uuid ++ " not found")
    else if e.kind.isAssignmentExc then .httpError 500 "Internal server error"
    else .unhandled e

/-- Handler `add_elements` (lines 270-287), `POST /add_elements/`.
`svc` is the outcome of `AssignmentsService.add_elements`; only
`AssignmentElementFieldError` is caught. -/
def add_elements (svc : Except Exc (List GameElementCreate)) :
    HResp (List GameElementCreate) :=
  match svc with
  | .ok r => .success 200 r
  | .error e =>
    if e.kind = .assignmentElementFieldError then
      .httpError 400 elementsErrorDetail
    else .unhandled e

/-- Modelled from the spec: `AssignmentsService.add_elements` is not under
`src/` (only its caller is).  Per the spec, the service validates every
element of the batch against field bounds and occupancy (`validElement`
abstracts that check) and inserts all-or-nothing: an all-valid batch is
appended to the stored elements, and a batch with any invalid element
raises `AssignmentElementFieldError` leaving the store unchanged. -/
def serviceAddElements (validElement : GameElementCreate → Bool)
    (stored element_list : List GameElementCreate) :
    List GameElementCreate × Except Exc (List GameElementCreate) :=
  if element_list.all validElement then
    (stored ++ element_list, .ok element_list)
  else
    (stored, .error ⟨.assignmentElementFieldError, "element field error"⟩)

/-- The `POST /add_elements/` endpoint end to end: the spec-modelled service
followed by the handler of lines 270-287.  Returns the stored elements
after the request together with the HTTP result. -/
def add_elements_endpoint (validElement : GameElementCreate → Bool)
    (stored element_list : List GameElementCreate) :
    List GameElementCreate × HResp (List GameElementCreate) :=
  let r := serviceAddElements validElement stored element_list
  (r.1, add_elements r.2)

/-- Handler `get_actions` (lines 290-299), `GET /actions/{assignment_uuid}/`:
a bare passthrough to `AssignmentRepo.get_assignment_actions` with no
`try`/`except`. -/
def get_actions (svc : Except Exc (List ActionGet)) : HResp (List ActionGet) :=
  match svc with
  | .error e => .unhandled e
  | .ok r => .success 200 r

/-- Handler `add_actions` (lines 302-313), `POST /add_actions/`: a bare
passthrough to `AssignmentRepo.add_actions` with no `try`/`except`. -/
def add_actions (svc : Except Exc (List ActionGet)) : HResp (List ActionGet) :=
  match svc with
  | .error e => .unhandled e
  | .ok r => .success 200 r

/-- C9: for GET /actions/{assignment_uuid}/ and POST /add_actions/, every
exception raised by the repository call propagates out of the handler
unhandled; no exception-to-status translation is applied. -/
theorem C9_actions_propagate_unhandled (e : Exc) :
    get_actions (Except.error e) = HResp.unhandled e ∧
    add_actions (Except.error e) = HResp.unhandled e :=
  ⟨rfl, rfl⟩

/-- C5: for POST /assignment/, when the service raises
CourseNotFoundException the handler responds 400 with a message containing
the offending course UUID from the request body. -/
theorem C5_course_not_found_400_with_uuid (cid m : String) :
    (create_assignment ⟨cid⟩ none
        (Except.error ⟨.courseNotFoundException, m⟩)).2
      = HResp.httpError 400
          ("Course with id " ++ cid ++ " not found, can't create assignment") ∧
    ∃ p s, "Course with id " ++ cid ++ " not found, can't create assignment"
      = p ++ cid ++ s :=
  ⟨rfl, ⟨"Course with id ", " not found, can't create assignment", rfl⟩⟩

/-- C6: for POST /assignment/delete/{assignment_id},
AssignmentNotFoundException yields 404, and a truthy deleted assignment
yields 201 with a detail string containing that assignment's id. -/
theorem C6_delete_assignment_404_and_201 (uuid m : String)
    (a : AssignmentGet) :
    delete_assignment uuid none
        (Except.error ⟨.assignmentNotFoundException, m⟩)
      = HResp.httpError 404 ("Assignment with id " ++ uuid ++ " not found") ∧
    delete_assignment uuid none (Except.ok (some a))
      = HResp.success 201
          ("Assigment with id " ++ a.assignment_id ++ " successfully deleted") ∧
    ∃ p s, "Assigment with id " ++ a.assignment_id ++ " successfully deleted"
      = p ++ a.assignment_id ++ s :=
  ⟨rfl, rfl, ⟨"Assigment with id ", " successfully deleted", rfl⟩⟩

/-- C10: on a falsy service return, delete_assignment does not reach the
HTTPException(500, "Internal server error") of line 217: line 216 applies %
to a format string with no placeholder, raising TypeError, which escapes the
handler unhandled. -/
theorem C10_delete_falsy_raises_type_error :
    delete_assignment "3fa85f64" none (Except.ok none)
      = HResp.unhandled
          ⟨.typeError, "not all arguments converted during string formatting"⟩ ∧
    delete_assignment "3fa85f64" none (Except.ok none)
      ≠ HResp.httpError 500 "Internal server error" := by
  constructor
  · rfl
  · decide

/-- C4: for GET /assignments/ with a valid course_uuid, a nonempty service
result yields status 201 with body exactly the returned list, and an empty
result yields 404 "Assignment not found". -/
theorem C4_get_assignments_nonempty_201_empty_404 (l : List AssignmentGet) :
    (l ≠ [] → get_assignments (Except.ok l) = HResp.success 201 l) ∧
    (l = [] → get_assignments (Except.ok l)
        = HResp.httpError 404 "Assignment not found") := by
  constructor
  · intro h
    cases l with
    | nil => exact absurd rfl h
    | cons a t => rfl
  · intro h
    subst h
    rfl

/-- C4 witness: the theorem applied to a one-element list and to the empty
list. -/
theorem C4_get_assignments_nonempty_201_empty_404_witness :
    get_assignments (Except.ok [AssignmentGet.mk "a1" "c1"])
      = HResp.success 201 [AssignmentGet.mk "a1" "c1"] ∧
    get_assignments (Except.ok ([] : List AssignmentGet))
      = HResp.httpError 404 "Assignment not found" :=
  ⟨(C4_get_assignments_nonempty_201_empty_404 [AssignmentGet.mk "a1" "c1"]).1
      (by decide),
   (C4_get_assignments_nonempty_201_empty_404 []).2 rfl⟩

/-- C8: in create_assignment the only_teacher permission gate is always the
first external call, and when it raises, the handler returns its exception
with the service never invoked. -/
theorem C8_only_teacher_precedes_service (assignment_in : AssignmentCreate)
    (perm : Option Exc) (svc : Except Exc (Option AssignmentGet)) :
    (create_assignment assignment_in perm svc).1.head?
      = some CallEvent.onlyTeacherCall ∧
    ∀ e, perm = some e →
      (create_assignment assignment_in perm svc).1
          = [CallEvent.onlyTeacherCall] ∧
      CallEvent.serviceCreateAssignmentCall
        ∉ (create_assignment assignment_in perm svc).1 ∧
      (create_assignment assignment_in perm svc).2 = HResp.unhandled e := by
  cases perm with
  | some e =>
    exact ⟨rfl, fun e' h => by
      cases h
      exact ⟨rfl, by simp [create_assignment], rfl⟩⟩
  | none =>
    exact ⟨rfl, fun e' h => by cases h⟩

/-- C8 witness: a denied caller at a concrete request; the permission
exception escapes and the service-call event is absent from the trace. -/
theorem C8_only_teacher_precedes_service_witness :
    (create_assignment (AssignmentCreate.mk "c1")
        (some ⟨.otherException, "Forbidden"⟩) (Except.ok none)).1
      = [CallEvent.onlyTeacherCall] ∧
    CallEvent.serviceCreateAssignmentCall
      ∉ (create_assignment (AssignmentCreate.mk "c1")
          (some ⟨.otherException, "Forbidden"⟩) (Except.ok none)).1 ∧
    (create_assignment (AssignmentCreate.mk "c1")
        (some ⟨.otherException, "Forbidden"⟩) (Except.ok none)).2
      = HResp.unhandled ⟨.otherException, "Forbidden"⟩ :=
  (C8_only_teacher_precedes_service (AssignmentCreate.mk "c1")
      (some ⟨.otherException, "Forbidden"⟩) (Except.ok none)).2
    ⟨.otherException, "Forbidden"⟩ rfl

/-- C2 counterexample: the add_elements handler catches only
AssignmentElementFieldError, so a SQLAlchemyError from the service escapes
unhandled instead of becoming a 500 "Database error" response. -/
theorem C2_counterexample_add_elements_sqlalchemy :
    add_elements (Except.error ⟨.sqlAlchemyError, "connection reset"⟩)
      = HResp.unhandled ⟨.sqlAlchemyError, "connection reset"⟩ ∧
    add_elements (Except.error ⟨.sqlAlchemyError, "connection reset"⟩)
      ≠ HResp.httpError 500 "Database error" := by
  constructor
  · rfl
  · decide

/-- C2 (amended): the four handlers with a SQLAlchemyError clause
(get_assignments, create_assignment, delete_assignment,
get_total_info_assignment) respond 500 "Database error"; add_elements,
get_actions and add_actions let a SQLAlchemyError escape unhandled. -/
theorem C2_sqlalchemy_mapped_to_500 (cid uuid m : String) :
    get_assignments (Except.error ⟨.sqlAlchemyError, m⟩)
      = HResp.httpError 500 "Database error" ∧
    (create_assignment ⟨cid⟩ none (Except.error ⟨.sqlAlchemyError, m⟩)).2
      = HResp.httpError 500 "Database error" ∧
    delete_assignment uuid none (Except.error ⟨.sqlAlchemyError, m⟩)
      = HResp.httpError 500 "Database error" ∧
    get_total_info_assignment uuid (Except.error ⟨.sqlAlchemyError, m⟩)
      = HResp.httpError 500 "Database error" ∧
    add_elements (Except.error ⟨.sqlAlchemyError, m⟩)
      = HResp.unhandled ⟨.sqlAlchemyError, m⟩ ∧
    get_actions (Except.error ⟨.sqlAlchemyError, m⟩)
      = HResp.unhandled ⟨.sqlAlchemyError, m⟩ ∧
    add_actions (Except.error ⟨.sqlAlchemyError, m⟩)
      = HResp.unhandled ⟨.sqlAlchemyError, m⟩ :=
  ⟨rfl, rfl, rfl, rfl, rfl, rfl, rfl⟩

/-- C1 counterexample: create_assignment answers the
AssignmentGameFieldException branch with detail str(e) — the raw exception
message, verbatim — so two different exception messages yield two different
error bodies. -/
theorem C1_counterexample_raw_message_echoed :
    (create_assignment ⟨"c1"⟩ none
        (Except.error
          ⟨.assignmentGameFieldException, "raw internal exception text"⟩)).2
      = HResp.httpError 400 "raw internal exception text" ∧
    (create_assignment ⟨"c1"⟩ none
        (Except.error ⟨.assignmentGameFieldException, "other text"⟩)).2
      = HResp.httpError 400 "other text" :=
  ⟨rfl, rfl⟩

/-- C1 (amended): in every caught-error branch the HTTP error body is
independent of the raised exception's message, except the
AssignmentGameFieldException and AssignmentPositionError branches of
create_assignment, which echo str(e). -/
theorem C1_error_bodies_message_independent (cid uuid m m' : String)
    (k : ExcKind) :
    errInfo (get_assignments (Except.error ⟨k, m⟩))
      = errInfo (get_assignments (Except.error ⟨k, m'⟩)) ∧
    (k ≠ .assignmentGameFieldException → k ≠ .assignmentPositionError →
      errInfo ((create_assignment ⟨cid⟩ none (Except.error ⟨k, m⟩)).2)
        = errInfo ((create_assignment ⟨cid⟩ none (Except.error ⟨k, m'⟩)).2)) ∧
    errInfo (delete_assignment uuid none (Except.error ⟨k, m⟩))
      = errInfo (delete_assignment uuid none (Except.error ⟨k, m'⟩)) ∧
    errInfo (get_total_info_assignment uuid (Except.error ⟨k, m⟩))
      = errInfo (get_total_info_assignment uuid (Except.error ⟨k, m'⟩)) ∧
    errInfo (add_elements (Except.error ⟨k, m⟩))
      = errInfo (add_elements (Except.error ⟨k, m'⟩)) := by
  cases k <;> refine ⟨rfl, fun h h' => ?_, rfl, rfl, rfl⟩ <;>
    first
      | rfl
      | exact absurd rfl h
      | exact absurd rfl h'

/-- C1 witness: at a database error the create_assignment body is the same
for two different exception messages. -/
theorem C1_error_bodies_message_independent_witness :
    errInfo ((create_assignment (AssignmentCreate.mk "c1") none
        (Except.error ⟨.sqlAlchemyError, "m1"⟩)).2)
      = errInfo ((create_assignment (AssignmentCreate.mk "c1") none
        (Except.error ⟨.sqlAlchemyError, "m2"⟩)).2) :=
  (C1_error_bodies_message_independent "c1" "u1" "m1" "m2"
      .sqlAlchemyError).2.1 (by decide) (by decide)

/-- C3 counterexample: get_assignments has no generic AssignmentException
clause, so a plain assignment-domain exception escapes the handler instead
of becoming a 500 response. -/
theorem C3_counterexample_get_assignments_propagates :
    get_assignments
        (Except.error ⟨.assignmentException, "unexpected domain failure"⟩)
      = HResp.unhandled ⟨.assignmentException, "unexpected domain failure"⟩ ∧
    errInfo (get_assignments
        (Except.error ⟨.assignmentException, "unexpected domain failure"⟩))
      = none :=
  ⟨rfl, rfl⟩

/-- C3 (amended): in the two handlers that do catch the generic
AssignmentException — delete_assignment and get_total_info_assignment —
every assignment-domain exception other than the specifically mapped
AssignmentNotFoundException yields 500 "Internal server error". -/
theorem C3_generic_assignment_exception_500 (uuid m : String) (k : ExcKind)
    (hk : k.isAssignmentExc = true)
    (hn : k ≠ ExcKind.assignmentNotFoundException) :
    delete_assignment uuid none (Except.error ⟨k, m⟩)
      = HResp.httpError 500 "Internal server error" ∧
    get_total_info_assignment uuid (Except.error ⟨k, m⟩)
      = HResp.httpError 500 "Internal server error" := by
  cases k <;>
    first
      | exact absurd hk (by decide)
      | exact absurd rfl hn
      | exact ⟨rfl, rfl⟩

/-- C3 witness: the theorem applied to a plain AssignmentException. -/
theorem C3_generic_assignment_exception_500_witness :
    delete_assignment "u1" none
        (Except.error ⟨.assignmentException, "boom"⟩)
      = HResp.httpError 500 "Internal server error" ∧
    get_total_info_assignment "u1"
        (Except.error ⟨.assignmentException, "boom"⟩)
      = HResp.httpError 500 "Internal server error" :=
  C3_generic_assignment_exception_500 "u1" "boom" .assignmentException
    (by decide) (by decide)

/-- C7: a batch with at least one invalid element yields 400 with the fixed
placement-error detail and leaves the stored elements unchanged
(all-or-nothing); an all-valid batch is fully inserted and returned as
success. -/
theorem C7_add_elements_all_or_nothing
    (validElement : GameElementCreate → Bool)
    (stored element_list : List GameElementCreate) :
    ((∃ g ∈ element_list, validElement g = false) →
      add_elements_endpoint validElement stored element_list
        = (stored, HResp.httpError 400 elementsErrorDetail)) ∧
    (element_list.all validElement = true →
      add_elements_endpoint validElement stored element_list
        = (stored ++ element_list, HResp.success 200 element_list)) := by
  constructor
  · rintro ⟨g, hg, hv⟩
    have hall : ¬(element_list.all validElement = true) := by
      intro hAll
      rw [List.all_eq_true] at hAll
      have hgt := hAll g hg
      rw [hv] at hgt
      exact Bool.noConfusion hgt
    simp only [add_elements_endpoint, serviceAddElements]
    rw [if_neg hall]
    rfl
  · intro hall
    simp only [add_elements_endpoint, serviceAddElements]
    rw [if_pos hall]
    rfl

/-- C7 witness: with validity "element_id < 10", the batch [5, 20] is
rejected with no insertion and the batch [1] is fully inserted. -/
theorem C7_add_elements_all_or_nothing_witness :
    add_elements_endpoint (fun g => decide (g.element_id < 10)) []
        [GameElementCreate.mk 5, GameElementCreate.mk 20]
      = ([], HResp.httpError 400 elementsErrorDetail) ∧
    add_elements_endpoint (fun g => decide (g.element_id < 10)) []
        [GameElementCreate.mk 1]
      = ([GameElementCreate.mk 1], HResp.success 200 [GameElementCreate.mk 1]) :=
  ⟨(C7_add_elements_all_or_nothing (fun g => decide (g.element_id < 10)) []
        [GameElementCreate.mk 5, GameElementCreate.mk 20]).1
      ⟨GameElementCreate.mk 20, by decide, by decide⟩,
   (C7_add_elements_all_or_nothing (fun g => decide (g.element_id < 10)) []
        [GameElementCreate.mk 1]).2 (by decide)⟩
